import Mathlib

/-!
Verification development for the smart-advertising system.

This file gives a shallow embedding, over exact rational arithmetic, of the
core algorithms of the repository:

* the ad queue scorer (scoreAd in the ad-queue hook),
* the gender bias correction (applyFemaleBoost in genderHeuristics.ts),
* the vote stabilization helpers (getStableGender / getStableAgeGroup in
  types/detection.ts),
* the detection merger (mergeDetections in the face-detection hook),
* the Pass 1 / Pass 2 threshold computations and the Pass 2 trigger of the
  multi-pass detection orchestrator,
* the per-scale error recovery of Pass 1,
* the capture-session close step that builds the session summary, and
* the temporal tracker cycle of the detection loop: greedy matching,
  matched-track update, spawning of tracks for unmatched detections and
  the missed-frame / stale-track pass.

JavaScript numbers are modelled as rationals.  The only operation of the
tracker that is not rational is the Euclidean center distance
Math.sqrt(dx^2 + dy^2); the matching step therefore takes the distance
function as an explicit parameter.  Concrete instantiations use
axialCenterDistance, which coincides with the Euclidean center distance
whenever the two box centers share their y coordinate.
-/

namespace SmartAds

/-- Gender labels as used by the classifier and the tracker. -/
inductive Gender
  | male
  | female
deriving DecidableEq, Repr

/-- Age buckets: kid is under 13, young is 13 to 34, adult is 35 and up. -/
inductive AgeGroup
  | kid
  | young
  | adult
deriving DecidableEq, Repr

/-- Target gender of a spot; the wildcard all matches any audience. -/
inductive TargetGender
  | male
  | female
  | all
deriving DecidableEq, Repr

/-- Target age of a spot; the wildcard all matches any audience. -/
inductive TargetAge
  | kid
  | young
  | adult
  | all
deriving DecidableEq, Repr

/-- Which detector produced a result (config value dual denotes both). -/
inductive DetectorKind
  | tiny
  | ssd
  | dual
deriving DecidableEq, Repr

/-- Demographic counts, as in DemographicCounts of types/ad.ts. -/
structure DemographicCounts where
  male : ℕ
  female : ℕ
  kid : ℕ
  young : ℕ
  adult : ℕ
deriving DecidableEq, Repr

/-- The part of AdMetadata that the scorer reads. -/
structure AdMetadata where
  id : String
  gender : TargetGender
  ageGroup : TargetAge
deriving DecidableEq, Repr

/-- Dominant gender: male when demographics.male is at least demographics.female,
from scoreAd in the ad-queue hook. -/
def dominantGender (demographics : DemographicCounts) : TargetGender :=
  if demographics.female ≤ demographics.male then .male else .female

/-- Dominant age group, from scoreAd: kid when kid is at least young and at
least adult, else adult when adult is strictly above both, else young. -/
def dominantAge (demographics : DemographicCounts) : TargetAge :=
  if demographics.young ≤ demographics.kid ∧ demographics.adult ≤ demographics.kid then .kid
  else if demographics.young < demographics.adult ∧ demographics.kid < demographics.adult then .adult
  else .young

/-- The scorer, from scoreAd in the ad-queue hook.  The reasons strings of the
returned AdScore are dropped; only the numeric score is modelled.  The
lastPlayedId argument is the single last-played id reference (null modelled
as none). -/
def scoreAd (lastPlayedId : Option String) (ad : AdMetadata)
    (demographics : DemographicCounts) : ℤ :=
  let dg := dominantGender demographics
  let da := dominantAge demographics
  let genderMatches := ad.gender = dg ∨ ad.gender = .all
  let ageMatches := ad.ageGroup = da ∨ ad.ageGroup = .all
  let base : ℤ :=
    if ad.gender = dg ∧ ad.ageGroup = da then 10
    else if genderMatches ∧ ageMatches then 5
    else if ad.gender = dg then 3
    else if ad.ageGroup = da then 3
    else -5
  let penalty : ℤ :=
    match lastPlayedId with
    | some lid => if ad.id = lid then -3 else 0
    | none => 0
  base + penalty

/-- Bias correction, from applyFemaleBoost in utils/genderHeuristics.ts. -/
def applyFemaleBoost (rawGender : Gender) (rawConfidence femaleBoostFactor hairScore : ℚ) :
    Gender × ℚ :=
  if rawConfidence < 45/100 ∨ rawConfidence > 70/100 then (rawGender, rawConfidence)
  else
    let femaleProbRaw : ℚ := if rawGender = .female then rawConfidence else 1 - rawConfidence
    let boost := femaleBoostFactor * (3/10 + hairScore * (7/10))
    let femaleProb := min (95/100) (femaleProbRaw + boost)
    if femaleProb > 1/2 then (.female, femaleProb) else (.male, 1 - femaleProb)

/-- Gender vote accumulator of a track or viewer aggregate. -/
structure GenderVotes where
  male : ℚ
  female : ℚ
deriving DecidableEq, Repr

/-- Age vote accumulator of a track or viewer aggregate. -/
structure AgeVotes where
  kid : ℚ
  young : ℚ
  adult : ℚ
deriving DecidableEq, Repr

/-- Vote stabilization for gender, from getStableGender in types/detection.ts.
The source's optional opts default to minTotal 0.9 and minMargin 0.25; both
call sites of the detection loop use the defaults. -/
def getStableGender (votes : GenderVotes) (previous : Gender) (minTotal minMargin : ℚ) :
    Gender :=
  let total := votes.male + votes.female
  if total < minTotal then previous
  else if |votes.female - votes.male| < minMargin then previous
  else if votes.male < votes.female then .female else .male

/-- Vote stabilization for age, from getStableAgeGroup in types/detection.ts.
The source builds the three entries in the order kid, young, adult and sorts
them by vote value descending with a stable sort; mergeSort is stable, so ties
keep that order exactly as the JavaScript sort does. -/
def getStableAgeGroup (votes : AgeVotes) (previous : AgeGroup) (minTotal minMargin : ℚ) :
    AgeGroup :=
  let total := votes.kid + votes.young + votes.adult
  if total < minTotal then previous
  else
    let entries := List.mergeSort
      [(AgeGroup.kid, votes.kid), (AgeGroup.young, votes.young), (AgeGroup.adult, votes.adult)]
      (fun a b => decide (b.2 ≤ a.2))
    let e0 := entries.getD 0 (AgeGroup.young, 0)
    let e1 := entries.getD 1 (AgeGroup.young, 0)
    if e0.2 - e1.2 < minMargin then previous else e0.1

/-- Face box in source-frame coordinates. -/
structure FaceBoundingBox where
  x : ℚ
  y : ℚ
  width : ℚ
  height : ℚ
deriving DecidableEq, Repr

/-- Raw candidate of the detection merger.  The source reads score and box
through duck-typed accessors (detection.detection?.score ?? detection.score);
here both are direct fields, and the null-box guard of the source never fires
because the box is total. -/
structure RawCandidate where
  box : FaceBoundingBox
  score : ℚ
deriving DecidableEq, Repr

/-- Intersection over union of two boxes, as computed inside mergeDetections
and by calculateIoU of the detection loop (zero when the union is empty). -/
def candIoU (boxA boxB : FaceBoundingBox) : ℚ :=
  let x1 := max boxA.x boxB.x
  let y1 := max boxA.y boxB.y
  let x2 := min (boxA.x + boxA.width) (boxB.x + boxB.width)
  let y2 := min (boxA.y + boxA.height) (boxB.y + boxB.height)
  let intersection := max 0 (x2 - x1) * max 0 (y2 - y1)
  let areaA := boxA.width * boxA.height
  let areaB := boxB.width * boxB.height
  let unionArea := areaA + areaB - intersection
  if 0 < unionArea then intersection / unionArea else 0

/-- Containment of box B in box A (intersection area over the area of B), as
computed inside mergeDetections (zero when B has no area). -/
def candContainment (boxA boxB : FaceBoundingBox) : ℚ :=
  let x1 := max boxA.x boxB.x
  let y1 := max boxA.y boxB.y
  let x2 := min (boxA.x + boxA.width) (boxB.x + boxB.width)
  let y2 := min (boxA.y + boxA.height) (boxB.y + boxB.height)
  let intersection := max 0 (x2 - x1) * max 0 (y2 - y1)
  let areaB := boxB.width * boxB.height
  if 0 < areaB then intersection / areaB else 0

/-- Duplicate test of mergeDetections: the candidate cand is a duplicate of the
already kept box when IoU reaches iouThreshold or containment reaches
containmentThreshold. -/
def isDuplicatePair (iouThreshold containmentThreshold : ℚ) (kept cand : RawCandidate) :
    Bool :=
  decide (iouThreshold ≤ candIoU kept.box cand.box) ||
    decide (containmentThreshold ≤ candContainment kept.box cand.box)

/-- Greedy suppression loop of mergeDetections: candidates are consumed in
order, and one is dropped exactly when it is a duplicate of some already kept
candidate. -/
def dedupeKeep (iouThreshold containmentThreshold : ℚ) :
    List RawCandidate → List RawCandidate → List RawCandidate
  | merged, [] => merged
  | merged, cand :: rest =>
    if merged.any (fun kept => isDuplicatePair iouThreshold containmentThreshold kept cand) then
      dedupeKeep iouThreshold containmentThreshold merged rest
    else
      dedupeKeep iouThreshold containmentThreshold (merged ++ [cand]) rest

/-- Score-descending sort of mergeDetections.  The JavaScript comparator
(a, b) => score(b) - score(a) sorts descending with a stable sort; mergeSort
with this relation is the stable descending sort. -/
def sortByScoreDesc (detections : List RawCandidate) : List RawCandidate :=
  List.mergeSort detections (fun a b => decide (b.score ≤ a.score))

/-- The detection merger, from mergeDetections in the face-detection hook.
The unused frame-size arguments of the source are omitted. -/
def mergeDetections (iouThreshold containmentThreshold : ℚ)
    (detections : List RawCandidate) : List RawCandidate :=
  dedupeKeep iouThreshold containmentThreshold [] (sortByScoreDesc detections)

/-- Base detection threshold of detectFaces:
max(config.sensitivity - 0.05, 0.15). -/
def detectionThreshold (sensitivity : ℚ) : ℚ :=
  max (sensitivity - 5/100) (15/100)

/-- Pass 1 threshold of detectFaces: max(detectionThreshold - 0.05, 0.1). -/
def pass1Threshold (sensitivity : ℚ) : ℚ :=
  max (detectionThreshold sensitivity - 5/100) (1/10)

/-- Pass 2 rescue threshold of detectFaces:
max(config.sensitivity - 0.10, 0.12). -/
def rescueThreshold (sensitivity : ℚ) : ℚ :=
  max (sensitivity - 10/100) (12/100)

/-- Pass 2 trigger of detectFaces: CCTV source, detector tier other than tiny,
and either fewer than 3 candidates after Pass 1 or enhanced rescue enabled. -/
def shouldRunPass2 (isCCTV : Bool) (detector : DetectorKind) (pass1Count : ℕ)
    (enableEnhancedRescue : Bool) : Bool :=
  isCCTV && decide (detector ≠ .tiny) && (decide (pass1Count < 3) || enableEnhancedRescue)

/-- Per-scale error recovery of Pass 1: each detector call is wrapped in a
try/catch that turns a throw into an empty candidate list. -/
def recoverDetections (outcome : Except String (List RawCandidate)) : List RawCandidate :=
  match outcome with
  | .ok detections => detections
  | .error _ => []

/-- Raw candidate set assembled by Pass 1 before merging: all per-scale calls
run (concurrently in the source, joined by Promise.all) and their recovered
results are concatenated by flat. -/
def pass1RawCandidates (scales : List ℕ)
    (outcome : ℕ → Except String (List RawCandidate)) : List RawCandidate :=
  (scales.map fun s => recoverDetections (outcome s)).flatten

/-- Whole-cycle guard of detectFaces: the detection promise is raced against a
timeout and any error is caught, returning an empty result for the tick. -/
def raceResult (outcome : Except String (List RawCandidate)) : List RawCandidate :=
  match outcome with
  | .ok detections => detections
  | .error _ => []

/-- Minimum confidence for a detection to contribute a vote, constant
MIN_VOTE_CONFIDENCE of the main component. -/
def MIN_VOTE_CONFIDENCE : ℚ := 65/100

/-- Minimum frames a viewer must be seen to count in the session summary,
constant MIN_FRAMES_FOR_SESSION of the main component. -/
def MIN_FRAMES_FOR_SESSION : ℕ := 2

/-- Per-viewer aggregate of a capture session, from ViewerAggregate in
types/detection.ts. -/
structure ViewerAggregate where
  trackingId : String
  genderVotes : GenderVotes
  ageVotes : AgeVotes
  seenFrames : ℕ
  bestFaceScore : ℚ
  bestConfidence : ℚ
  finalGender : Gender
  finalAgeGroup : AgeGroup
deriving DecidableEq, Repr

/-- Finalized capture-session summary, from CaptureSessionSummary in
types/detection.ts. -/
structure CaptureSessionSummary where
  startedAt : ℕ
  endedAt : ℕ
  totalFrames : ℕ
  uniqueViewers : ℕ
  demographics : DemographicCounts
  viewers : List ViewerAggregate
deriving DecidableEq, Repr

/-- Capture-window close step of the main component: viewers are filtered by
seenFrames at least MIN_FRAMES_FOR_SESSION and bestConfidence at least the
configured minimum demographic confidence, then counted per bucket. -/
def buildSessionSummary (startedAt endedAt frameCount : ℕ)
    (minDemographicConfidence : ℚ) (viewers : List ViewerAggregate) :
    CaptureSessionSummary :=
  let stableViewers :=
    (viewers.filter fun v => decide (MIN_FRAMES_FOR_SESSION ≤ v.seenFrames)).filter
      fun v => decide (minDemographicConfidence ≤ v.bestConfidence)
  { startedAt := startedAt
    endedAt := endedAt
    totalFrames := frameCount
    uniqueViewers := stableViewers.length
    demographics :=
      { male := (stableViewers.filter fun v => decide (v.finalGender = .male)).length
        female := (stableViewers.filter fun v => decide (v.finalGender = .female)).length
        kid := (stableViewers.filter fun v => decide (v.finalAgeGroup = .kid)).length
        young := (stableViewers.filter fun v => decide (v.finalAgeGroup = .young)).length
        adult := (stableViewers.filter fun v => decide (v.finalAgeGroup = .adult)).length }
    viewers := stableViewers }

/-- Track velocity in pixels per cycle. -/
structure Velocity where
  vx : ℚ
  vy : ℚ
deriving DecidableEq, Repr

/-- Classified detection handed to the tracker, from DetectionResult in
types/ad.ts (the lastSeen timestamp is not read by the tracker and is
omitted). -/
structure DetectionResult where
  gender : Gender
  ageGroup : AgeGroup
  confidence : ℚ
  faceScore : ℚ
  boundingBox : FaceBoundingBox
  trackingId : String
deriving DecidableEq, Repr

/-- Tracked face, from TrackedFace in types/detection.ts.  The optional
isUserCorrected flag is total here; the source's undefined reads as false. -/
structure TrackedFace where
  id : String
  boundingBox : FaceBoundingBox
  velocity : Velocity
  confidence : ℚ
  faceScore : ℚ
  gender : Gender
  ageGroup : AgeGroup
  consecutiveHits : ℕ
  missedFrames : ℕ
  firstSeenAt : ℕ
  lastSeenAt : ℕ
  detectorUsed : DetectorKind
  genderVotes : GenderVotes
  ageVotes : AgeVotes
  stableGender : Gender
  stableAgeGroup : AgeGroup
  isUserCorrected : Bool
deriving DecidableEq, Repr

/-- Tracking parameters read by the detection loop from the active
CCTVDetectionConfig. -/
structure TrackingConfig where
  minConsecutiveFrames : ℕ
  holdFrames : ℕ
  maxVelocityPx : ℚ
deriving DecidableEq, Repr

/-- Tracking part of DEFAULT_WEBCAM_CONFIG in types/detection.ts. -/
def DEFAULT_WEBCAM_TRACKING : TrackingConfig :=
  { minConsecutiveFrames := 2, holdFrames := 3, maxVelocityPx := 250 }

/-- Tracking part of DEFAULT_CCTV_CONFIG in types/detection.ts. -/
def DEFAULT_CCTV_TRACKING : TrackingConfig :=
  { minConsecutiveFrames := 2, holdFrames := 8, maxVelocityPx := 250 }

/-- Axial center distance.  It equals the Euclidean center distance computed
by calculateCenterDistance whenever the two boxes have the same center y
coordinate; concrete counterexamples below are built so that this holds. -/
def axialCenterDistance (box1 box2 : FaceBoundingBox) : ℚ :=
  |(box2.x + box2.width/2) - (box1.x + box1.width/2)|

/-- Vote weight of a detection: confidence times faceScore capped at 1. -/
def voteWeightOf (detection : DetectionResult) : ℚ :=
  detection.confidence * min detection.faceScore 1

/-- Confidence scale of the proportional female boost: full boost at
confidence 0.5, no boost at confidence 1. -/
def confidenceScaleOf (detection : DetectionResult) : ℚ :=
  max 0 (1 - (detection.confidence - 1/2) * 2)

/-- Proportional female boost applied to female vote contributions. -/
def femaleBoostOf (femaleBoostFactor : ℚ) (detection : DetectionResult) : ℚ :=
  femaleBoostFactor * confidenceScaleOf detection

/-- Add a weighted vote to the age bucket of the detection. -/
def addAgeVote (votes : AgeVotes) (bucket : AgeGroup) (w : ℚ) : AgeVotes :=
  match bucket with
  | .kid => { votes with kid := votes.kid + w }
  | .young => { votes with young := votes.young + w }
  | .adult => { votes with adult := votes.adult + w }

/-- Spawn of a new provisional track for an unmatched detection, from the
detection loop of the main component.  Votes are seeded only when the
detection's confidence reaches MIN_VOTE_CONFIDENCE; a female detection's vote
weight carries the extra proportional boost factor. -/
def spawnTrack (femaleBoostFactor : ℚ) (newId : String) (now : ℕ)
    (detection : DetectionResult) : TrackedFace :=
  let zeroGender : GenderVotes := { male := 0, female := 0 }
  let zeroAge : AgeVotes := { kid := 0, young := 0, adult := 0 }
  let seeded :=
    if MIN_VOTE_CONFIDENCE ≤ detection.confidence then
      let voteWeight := voteWeightOf detection
      let femaleBoost := femaleBoostOf femaleBoostFactor detection
      let gv :=
        if detection.gender = .male then { zeroGender with male := voteWeight }
        else { zeroGender with female := voteWeight * (1 + femaleBoost) }
      (gv, addAgeVote zeroAge detection.ageGroup voteWeight)
    else (zeroGender, zeroAge)
  { id := newId
    boundingBox := detection.boundingBox
    velocity := { vx := 0, vy := 0 }
    confidence := detection.confidence
    faceScore := detection.faceScore
    gender := detection.gender
    ageGroup := detection.ageGroup
    consecutiveHits := 1
    missedFrames := 0
    firstSeenAt := now
    lastSeenAt := now
    detectorUsed := if detection.trackingId.startsWith "ssd" then .ssd else .tiny
    genderVotes := seeded.1
    ageVotes := seeded.2
    stableGender := detection.gender
    stableAgeGroup := detection.ageGroup
    isUserCorrected := false }

/-- Update of a matched track, from the detection loop of the main component:
box smoothing with alpha 0.7, velocity blending one half each, confidence-
gated vote accumulation with the proportional female boost, and vote
stabilization with the default thresholds. -/
def updateMatchedTrack (femaleBoostFactor : ℚ) (now : ℕ) (trackedFace : TrackedFace)
    (detection : DetectionResult) : TrackedFace :=
  let alpha : ℚ := 7/10
  let newVx := detection.boundingBox.x - trackedFace.boundingBox.x
  let newVy := detection.boundingBox.y - trackedFace.boundingBox.y
  let takeVote :=
    trackedFace.isUserCorrected = false ∧ MIN_VOTE_CONFIDENCE ≤ detection.confidence
  let newGenderVotes :=
    if takeVote then
      let voteWeight := voteWeightOf detection
      let femaleBoost := femaleBoostOf femaleBoostFactor detection
      if detection.gender = .male then
        { trackedFace.genderVotes with male := trackedFace.genderVotes.male + voteWeight }
      else
        { trackedFace.genderVotes with
            female := trackedFace.genderVotes.female + voteWeight * (1 + femaleBoost) }
    else trackedFace.genderVotes
  let newAgeVotes :=
    if takeVote then addAgeVote trackedFace.ageVotes detection.ageGroup (voteWeightOf detection)
    else trackedFace.ageVotes
  let stableGender :=
    if trackedFace.isUserCorrected then trackedFace.stableGender
    else getStableGender newGenderVotes trackedFace.stableGender (9/10) (1/4)
  let stableAgeGroup :=
    if trackedFace.isUserCorrected then trackedFace.stableAgeGroup
    else getStableAgeGroup newAgeVotes trackedFace.stableAgeGroup (9/10) (1/4)
  { trackedFace with
    boundingBox :=
      { x := trackedFace.boundingBox.x * (1 - alpha) + detection.boundingBox.x * alpha
        y := trackedFace.boundingBox.y * (1 - alpha) + detection.boundingBox.y * alpha
        width := trackedFace.boundingBox.width * (1 - alpha) + detection.boundingBox.width * alpha
        height := trackedFace.boundingBox.height * (1 - alpha) + detection.boundingBox.height * alpha }
    velocity :=
      { vx := trackedFace.velocity.vx * (1/2) + newVx * (1/2)
        vy := trackedFace.velocity.vy * (1/2) + newVy * (1/2) }
    confidence := if trackedFace.isUserCorrected then 1 else detection.confidence
    faceScore := detection.faceScore
    gender := if trackedFace.isUserCorrected then trackedFace.gender else detection.gender
    ageGroup := if trackedFace.isUserCorrected then trackedFace.ageGroup else detection.ageGroup
    consecutiveHits := trackedFace.consecutiveHits + 1
    missedFrames := 0
    lastSeenAt := now
    detectorUsed := if detection.trackingId.startsWith "ssd" then .ssd else .tiny
    genderVotes := newGenderVotes
    ageVotes := newAgeVotes
    stableGender := stableGender
    stableAgeGroup := stableAgeGroup }

/-- Best-match search of the detection loop for one track: indices already in
used are skipped, a candidate is rejected when the effective distance (minimum
of the actual and the velocity-predicted center distance) exceeds
maxVelocityPx, and it is taken only when its combined score beats the best so
far and IoU exceeds 0.2 or the effective distance is below 80.  The distance
function is a parameter, see the module comment. -/
def bestMatchFor (dist : FaceBoundingBox → FaceBoundingBox → ℚ) (cfg : TrackingConfig)
    (results : List DetectionResult) (used : List ℕ) (trackedFace : TrackedFace) :
    Option (ℕ × DetectionResult) :=
  (results.enum.foldl
    (fun (acc : ℚ × Option (ℕ × DetectionResult)) (p : ℕ × DetectionResult) =>
      if used.contains p.1 then acc
      else
        let detection := p.2
        let iou := candIoU detection.boundingBox trackedFace.boundingBox
        let distance := dist detection.boundingBox trackedFace.boundingBox
        let predictedBox :=
          { trackedFace.boundingBox with
              x := trackedFace.boundingBox.x + trackedFace.velocity.vx
              y := trackedFace.boundingBox.y + trackedFace.velocity.vy }
        let predictedDistance := dist detection.boundingBox predictedBox
        let effectiveDistance := min distance predictedDistance
        if cfg.maxVelocityPx < effectiveDistance then acc
        else
          let score := iou * (6/10) + max 0 (1 - effectiveDistance/200) * (4/10)
          if acc.1 < score ∧ (1/5 < iou ∨ effectiveDistance < 80) then (score, some p)
          else acc)
    (0, none)).2

/-- Greedy matching of the detection loop: tracks are visited in table order
and each claims its best eligible, not yet used detection. -/
def greedyMatch (dist : FaceBoundingBox → FaceBoundingBox → ℚ) (cfg : TrackingConfig)
    (tracked : List TrackedFace) (results : List DetectionResult) :
    List (String × ℕ × DetectionResult) :=
  tracked.foldl
    (fun assignment t =>
      match bestMatchFor dist cfg results (assignment.map fun a => a.2.1) t with
      | some p => assignment ++ [(t.id, p)]
      | none => assignment)
    []

/-- One step of the stale-track pass for a track that the pass touches:
missedFrames is incremented, the position is extrapolated by half the velocity
while the new missed count is within half the hold budget (the source compares
against holdFrames / 2 in exact arithmetic, hence the doubled comparison), and
the track is dropped once the count exceeds holdFrames. -/
def staleStep (holdFrames : ℕ) (t : TrackedFace) : Option TrackedFace :=
  let m := t.missedFrames + 1
  let box :=
    if 2 * m ≤ holdFrames then
      { t.boundingBox with
          x := t.boundingBox.x + t.velocity.vx * (1/2)
          y := t.boundingBox.y + t.velocity.vy * (1/2) }
    else t.boundingBox
  if holdFrames < m then none
  else some { t with missedFrames := m, boundingBox := box }

/-- Stale-track pass of the detection loop.  A track is touched only when it
is unmatched AND no detection of the cycle is left unused; the source guard is
the conjunction of negations of matchedIds.has(id) and of
results.some((unused, i) => not usedDetections.has(i)). -/
def staleUpdate (matchedIds : List String) (anyUnusedDetection : Bool) (holdFrames : ℕ)
    (table : List TrackedFace) : List TrackedFace :=
  table.filterMap fun t =>
    if matchedIds.contains t.id || anyUnusedDetection then some t
    else staleStep holdFrames t

/-- One full tracker cycle of the detection loop: greedy matching, update of
matched tracks, spawning of new tracks for unused detections, then the
stale-track pass over the whole table.  newIdOf models the random id
generation of the source; map insertion order is modelled by the list order,
with the spawned tracks appended after the existing ones. -/
def runCycleTracks (dist : FaceBoundingBox → FaceBoundingBox → ℚ) (cfg : TrackingConfig)
    (femaleBoostFactor : ℚ) (now : ℕ) (newIdOf : ℕ → String)
    (tracked : List TrackedFace) (results : List DetectionResult) : List TrackedFace :=
  let assignment := greedyMatch dist cfg tracked results
  let matchedIds := assignment.map fun a => a.1
  let usedDetections := assignment.map fun a => a.2.1
  let afterMatch := tracked.map fun t =>
    match assignment.find? (fun a => decide (a.1 = t.id)) with
    | some a => updateMatchedTrack femaleBoostFactor now t a.2.2
    | none => t
  let newTracks :=
    (results.enum.filter fun p => ! usedDetections.contains p.1).map fun p =>
      spawnTrack femaleBoostFactor (newIdOf p.1) now p.2
  let anyUnused := results.enum.any fun p => ! usedDetections.contains p.1
  staleUpdate matchedIds anyUnused cfg.holdFrames (afterMatch ++ newTracks)

/-- Fixed id generator used by concrete cycle evaluations below. -/
def constNewId : ℕ → String := fun _ => "spawned"

/-- Demographics of the worked example of the spec:
male 5, female 1, kid 0, young 4, adult 1. -/
def sampleDemo : DemographicCounts :=
  { male := 5, female := 1, kid := 0, young := 4, adult := 1 }

/-- A concrete raw candidate used by witness evaluations. -/
def candA : RawCandidate :=
  { box := { x := 0, y := 0, width := 10, height := 10 }, score := 1/2 }

/-- A per-scale outcome map where the call at input size 416 throws and the
other scales return one candidate. -/
def failingOutcome : ℕ → Except String (List RawCandidate) := fun n =>
  if n = 416 then .error "detector crashed" else .ok [candA]

/-- A stable existing track at the origin, used by the tracker cycle
counterexample. -/
def trackT0 : TrackedFace :=
  { id := "t0"
    boundingBox := { x := 0, y := 0, width := 10, height := 10 }
    velocity := { vx := 0, vy := 0 }
    confidence := 9/10
    faceScore := 9/10
    gender := .male
    ageGroup := .young
    consecutiveHits := 3
    missedFrames := 0
    firstSeenAt := 0
    lastSeenAt := 0
    detectorUsed := .tiny
    genderVotes := { male := 1, female := 0 }
    ageVotes := { kid := 0, young := 1, adult := 0 }
    stableGender := .male
    stableAgeGroup := .young
    isUserCorrected := false }

/-- A detection 1000 px to the right of trackT0, same center height: its
center distance to trackT0 (and to trackT0's velocity-predicted position) is
exactly 1000, far beyond maxVelocityPx 250, so it can match no track. -/
def detectionFar : DetectionResult :=
  { gender := .male
    ageGroup := .young
    confidence := 9/10
    faceScore := 9/10
    boundingBox := { x := 1000, y := 0, width := 10, height := 10 }
    trackingId := "tiny_1000_0" }

/-- A detection whose confidence 0.5 is below MIN_VOTE_CONFIDENCE 0.65. -/
def detectionLowConf : DetectionResult :=
  { gender := .male
    ageGroup := .young
    confidence := 1/2
    faceScore := 9/10
    boundingBox := { x := 0, y := 0, width := 10, height := 10 }
    trackingId := "tiny_0_0" }

/-- A male detection whose confidence 0.8 clears MIN_VOTE_CONFIDENCE. -/
def detectionHighConf : DetectionResult :=
  { gender := .male
    ageGroup := .adult
    confidence := 4/5
    faceScore := 9/10
    boundingBox := { x := 0, y := 0, width := 10, height := 10 }
    trackingId := "tiny_0_0" }

/-- A viewer aggregate seen in a single frame with perfect confidence. -/
def viewerOneFrame : ViewerAggregate :=
  { trackingId := "v1"
    genderVotes := { male := 1, female := 0 }
    ageVotes := { kid := 0, young := 1, adult := 0 }
    seenFrames := 1
    bestFaceScore := 1
    bestConfidence := 1
    finalGender := .male
    finalAgeGroup := .young }

/-- A viewer aggregate seen in three frames with confidence 0.8. -/
def viewerThreeFrames : ViewerAggregate :=
  { trackingId := "v2"
    genderVotes := { male := 0, female := 2 }
    ageVotes := { kid := 0, young := 0, adult := 2 }
    seenFrames := 3
    bestFaceScore := 9/10
    bestConfidence := 4/5
    finalGender := .female
    finalAgeGroup := .adult }

/-- Helper fact: a vote state below either stabilization threshold leaves the
previous stable gender unchanged. -/
theorem getStableGender_keeps_previous (votes : GenderVotes) (previous : Gender)
    (h : votes.male + votes.female < 9/10 ∨ |votes.female - votes.male| < 1/4) :
    getStableGender votes previous (9/10) (1/4) = previous := by
  simp only [getStableGender]
  split_ifs with h1 h2 h3
  · rfl
  · rfl
  · rcases h with h | h
    · exact absurd h h1
    · exact absurd h h2
  · rcases h with h | h
    · exact absurd h h1
    · exact absurd h h2

/-- C1: the scorer gives 10 on an exact gender and age match, 5 when both
criteria are satisfied with a wildcard involved, 3 when exactly one side
matches exactly (and the pair is not already satisfied through wildcards),
minus 5 when neither side matches, and a further minus 3 exactly when the
spot's id equals the single last-played id; on the spec's worked demographics
the three sample spots score 10, 5 and 3. -/
theorem scoreAd_spec (lastId : String) (ad : AdMetadata) (demographics : DemographicCounts) :
    (ad.gender = dominantGender demographics ∧ ad.ageGroup = dominantAge demographics →
      scoreAd none ad demographics = 10) ∧
    (¬ (ad.gender = dominantGender demographics ∧ ad.ageGroup = dominantAge demographics) →
      (ad.gender = dominantGender demographics ∨ ad.gender = .all) →
      (ad.ageGroup = dominantAge demographics ∨ ad.ageGroup = .all) →
      scoreAd none ad demographics = 5) ∧
    (¬ ((ad.gender = dominantGender demographics ∨ ad.gender = .all) ∧
        (ad.ageGroup = dominantAge demographics ∨ ad.ageGroup = .all)) →
      (ad.gender = dominantGender demographics ∨ ad.ageGroup = dominantAge demographics) →
      scoreAd none ad demographics = 3) ∧
    (ad.gender ≠ dominantGender demographics → ad.gender ≠ .all →
      ad.ageGroup ≠ dominantAge demographics → ad.ageGroup ≠ .all →
      scoreAd none ad demographics = -5) ∧
    (ad.id = lastId → scoreAd (some lastId) ad demographics = scoreAd none ad demographics - 3) ∧
    (ad.id ≠ lastId → scoreAd (some lastId) ad demographics = scoreAd none ad demographics) ∧
    scoreAd none { id := "a", gender := .male, ageGroup := .young } sampleDemo = 10 ∧
    scoreAd none { id := "b", gender := .all, ageGroup := .all } sampleDemo = 5 ∧
    scoreAd none { id := "c", gender := .female, ageGroup := .young } sampleDemo = 3 := by
  refine ⟨?_, ?_, ?_, ?_, ?_, ?_, by decide, by decide, by decide⟩
  · rintro ⟨h1, h2⟩
    simp [scoreAd, h1, h2]
  · intro hnot hg ha
    simp only [scoreAd]
    rw [if_neg hnot, if_pos ⟨hg, ha⟩]
    norm_num
  · intro hnot hone
    have hc1 : ¬ (ad.gender = dominantGender demographics ∧
        ad.ageGroup = dominantAge demographics) := by
      rintro ⟨x, y⟩; exact hnot ⟨Or.inl x, Or.inl y⟩
    simp only [scoreAd]
    rw [if_neg hc1, if_neg hnot]
    by_cases hg : ad.gender = dominantGender demographics
    · rw [if_pos hg]; norm_num
    · rw [if_neg hg, if_pos (hone.resolve_left hg)]; norm_num
  · intro h1 h2 h3 h4
    have hc1 : ¬ (ad.gender = dominantGender demographics ∧
        ad.ageGroup = dominantAge demographics) := by
      rintro ⟨x, _⟩; exact h1 x
    have hc2 : ¬ ((ad.gender = dominantGender demographics ∨ ad.gender = .all) ∧
        (ad.ageGroup = dominantAge demographics ∨ ad.ageGroup = .all)) := by
      rintro ⟨x, _⟩; exact x.elim h1 h2
    simp only [scoreAd]
    rw [if_neg hc1, if_neg hc2, if_neg h1, if_neg h3]
    norm_num
  · intro h
    simp only [scoreAd]
    rw [if_pos h]
    ring
  · intro h
    simp only [scoreAd]
    rw [if_neg h]

/-- C1 witness: the scorer theorem instantiated on the spec's worked example,
including the repetition penalty. -/
theorem scoreAd_spec_witness :
    scoreAd none { id := "a", gender := .male, ageGroup := .young } sampleDemo = 10 ∧
    scoreAd (some "a") { id := "a", gender := .male, ageGroup := .young } sampleDemo = 7 ∧
    scoreAd none { id := "d", gender := .female, ageGroup := .adult } sampleDemo = -5 := by
  have h := scoreAd_spec "a" { id := "a", gender := .male, ageGroup := .young } sampleDemo
  have h10 := h.1 ⟨by decide, by decide⟩
  have hd := scoreAd_spec "z" { id := "d", gender := .female, ageGroup := .adult } sampleDemo
  refine ⟨h10, ?_, hd.2.2.2.1 (by decide) (by decide) (by decide) (by decide)⟩
  rw [h.2.2.2.2.1 rfl, h10]
  decide

/-- C4: with the default thresholds used by the detection loop, the stable
gender can change only when the gender vote total reaches 0.9 and the
female-male margin reaches 0.25; whenever either fails the previous stable
value is returned, and this persists over any sequence of such vote states. -/
theorem getStableGender_hysteresis (votes : GenderVotes) (previous : Gender) :
    (getStableGender votes previous (9/10) (1/4) ≠ previous →
      9/10 ≤ votes.male + votes.female ∧ 1/4 ≤ |votes.female - votes.male|) ∧
    (votes.male + votes.female < 9/10 ∨ |votes.female - votes.male| < 1/4 →
      getStableGender votes previous (9/10) (1/4) = previous) ∧
    (∀ updates : List GenderVotes,
      (∀ v ∈ updates, v.male + v.female < 9/10 ∨ |v.female - v.male| < 1/4) →
      updates.foldl (fun prev v => getStableGender v prev (9/10) (1/4)) previous = previous) := by
  refine ⟨?_, getStableGender_keeps_previous votes previous, ?_⟩
  · intro hne
    by_cases h1 : votes.male + votes.female < 9/10
    · exact absurd (getStableGender_keeps_previous votes previous (Or.inl h1)) hne
    by_cases h2 : |votes.female - votes.male| < 1/4
    · exact absurd (getStableGender_keeps_previous votes previous (Or.inr h2)) hne
    exact ⟨le_of_not_lt h1, le_of_not_lt h2⟩
  · intro updates
    induction updates generalizing previous with
    | nil => intro _; rfl
    | cons v rest ih =>
      intro hall
      have hv := hall v (List.mem_cons_self v rest)
      simp only [List.foldl_cons, getStableGender_keeps_previous v previous hv]
      exact ih previous fun u hu => hall u (List.mem_cons_of_mem v hu)

/-- C4 witness: a weak-total state and a weak-margin state leave a previously
stable male unchanged, also when iterated. -/
theorem getStableGender_hysteresis_witness :
    getStableGender { male := 3/10, female := 1/2 } .male (9/10) (1/4) = .male ∧
    getStableGender { male := 1, female := 11/10 } .male (9/10) (1/4) = .male ∧
    [({ male := 3/10, female := 1/2 } : GenderVotes), { male := 1, female := 11/10 }].foldl
      (fun prev v => getStableGender v prev (9/10) (1/4)) .male = .male := by
  have habs : |(11/10 : ℚ) - 1| < 1/4 := by
    rw [show (11/10 : ℚ) - 1 = 1/10 by norm_num,
      abs_of_nonneg (by norm_num : (0 : ℚ) ≤ 1/10)]
    norm_num
  refine ⟨(getStableGender_hysteresis _ .male).2.1 (Or.inl (by norm_num)),
    (getStableGender_hysteresis _ .male).2.1 (Or.inr habs),
    (getStableGender_hysteresis { male := 3/10, female := 1/2 } .male).2.2 _ ?_⟩
  intro v hv
  rcases List.mem_pair.mp hv with rfl | rfl
  · exact Or.inl (by norm_num)
  · exact Or.inr habs

/-- C5: bias correction is the identity outside the confidence band from 0.45
to 0.70; inside the band it forms the female probability, adds
boostFactor times (0.3 plus 0.7 times hairScore), clamps at 0.95, and returns
female with the adjusted probability when it exceeds 0.5, male with its
complement otherwise. -/
theorem applyFemaleBoost_spec (g : Gender) (c bf hs : ℚ) :
    (c < 45/100 ∨ 70/100 < c → applyFemaleBoost g c bf hs = (g, c)) ∧
    (45/100 ≤ c → c ≤ 70/100 →
      min (95/100) ((if g = .female then c else 1 - c) + bf * (3/10 + hs * (7/10))) ≤ 95/100 ∧
      (1/2 < min (95/100) ((if g = .female then c else 1 - c) + bf * (3/10 + hs * (7/10))) →
        applyFemaleBoost g c bf hs =
          (.female,
            min (95/100) ((if g = .female then c else 1 - c) + bf * (3/10 + hs * (7/10))))) ∧
      (min (95/100) ((if g = .female then c else 1 - c) + bf * (3/10 + hs * (7/10))) ≤ 1/2 →
        applyFemaleBoost g c bf hs =
          (.male,
            1 - min (95/100) ((if g = .female then c else 1 - c) + bf * (3/10 + hs * (7/10)))))) := by
  constructor
  · intro h
    simp only [applyFemaleBoost]
    rw [if_pos h]
  · intro hlo hhi
    have hcond : ¬ (c < 45/100 ∨ c > 70/100) := by
      push_neg
      exact ⟨hlo, hhi⟩
    simp only [applyFemaleBoost]
    rw [if_neg hcond]
    refine ⟨min_le_left _ _, ?_, ?_⟩
    · intro h2
      rw [if_pos h2]
    · intro h2
      rw [if_neg (not_lt.mpr h2)]

/-- C5 witness: a decisive confidence 0.8 is untouched, and an uncertain male
at 0.6 with boost 0.15 and hair score 0.5 ends at male with confidence
201/400. -/
theorem applyFemaleBoost_spec_witness :
    applyFemaleBoost .male (4/5) (3/20) (1/2) = (.male, 4/5) ∧
    applyFemaleBoost .male (3/5) (3/20) (1/2) = (.male, 201/400) := by
  constructor
  · exact (applyFemaleBoost_spec .male (4/5) (3/20) (1/2)).1 (Or.inr (by norm_num))
  · have h := (applyFemaleBoost_spec .male (3/5) (3/20) (1/2)).2 (by norm_num) (by norm_num)
    have hp : min ((95 : ℚ)/100)
        ((if (Gender.male = Gender.female) then (3/5 : ℚ) else 1 - 3/5) +
          (3/20) * (3/10 + (1/2) * (7/10))) = 199/400 := by
      rw [if_neg (by decide : ¬ (Gender.male = Gender.female))]
      norm_num
    rw [hp] at h
    rw [h.2.2 (by norm_num)]
    norm_num

/-- C10: on the in-band input female at confidence 0.45, any boost factor and
hair score whose combined boost stays at or below 0.05 leave the adjusted
female probability at or below 0.5, so bias correction relabels the female
input as male. -/
theorem applyFemaleBoost_relabels_female (bf hs : ℚ)
    (h : bf * (3/10 + hs * (7/10)) ≤ 1/20) :
    (applyFemaleBoost .female (45/100) bf hs).1 = .male := by
  simp only [applyFemaleBoost]
  rw [if_neg (by norm_num : ¬ ((45 : ℚ)/100 < 45/100 ∨ (45 : ℚ)/100 > 70/100))]
  simp only [if_true]
  rw [if_neg (not_lt.mpr (le_trans (min_le_right _ _) (by linarith)))]

/-- C10 witness: boost factor 0.05 with hair score 0.5 gives combined boost
13/400, and the female input at 0.45 comes back male. -/
theorem applyFemaleBoost_relabels_female_witness :
    (applyFemaleBoost .female (45/100) (1/20) (1/2)).1 = .male :=
  applyFemaleBoost_relabels_female (1/20) (1/2) (by norm_num)

/-- C6, amended: Pass 2 runs exactly for a recorded (CCTV) source with a
detector tier other than tiny when fewer than 3 candidates were found or
enhanced rescue is enabled; its rescue threshold is always at least the
Pass 1 threshold, and it is strictly greater exactly when the configured
sensitivity is below 0.22 (at sensitivity 0.22 and above the two thresholds
coincide, so strictness fails there). -/
theorem pass2Trigger_thresholds (s : ℚ) (cctv er : Bool) (det : DetectorKind) (cnt : ℕ) :
    (shouldRunPass2 cctv det cnt er = true ↔
      cctv = true ∧ det ≠ .tiny ∧ (cnt < 3 ∨ er = true)) ∧
    pass1Threshold s ≤ rescueThreshold s ∧
    (pass1Threshold s < rescueThreshold s ↔ s < 11/50) := by
  refine ⟨?_, ?_, ?_⟩
  · simp [shouldRunPass2, Bool.and_eq_true, decide_eq_true_eq, Bool.or_eq_true, and_assoc]
  · simp only [pass1Threshold, detectionThreshold, rescueThreshold, max_def]
    split_ifs <;> linarith
  · simp only [pass1Threshold, detectionThreshold, rescueThreshold, max_def]
    split_ifs <;> constructor <;> intro h <;> linarith

/-- C6 witness: the threshold comparison of the amended theorem at the hook's
default sensitivity 0.4. -/
theorem pass2Trigger_thresholds_witness :
    pass1Threshold (2/5) ≤ rescueThreshold (2/5) :=
  (pass2Trigger_thresholds (2/5) true false .dual 0).2.1

/-- C6 counterexample: at sensitivity 0.4 (the hook's default, inside the
configured range) Pass 2 runs, yet its rescue threshold 0.3 equals the Pass 1
threshold 0.3 instead of being strictly greater. -/
theorem pass2_strictness_counterexample :
    shouldRunPass2 true .dual 0 false = true ∧
    pass1Threshold (2/5) = 3/10 ∧ rescueThreshold (2/5) = 3/10 := by
  refine ⟨by decide, ?_, ?_⟩
  · simp only [pass1Threshold, detectionThreshold, max_def]
    split_ifs <;> linarith
  · simp only [rescueThreshold, max_def]
    split_ifs <;> linarith

/-- C9: when the detector call of one scale of a pass throws, the try/catch
of that scale turns the failure into zero candidates, the contributions of
every other scale are untouched, and the joined cycle result is still
delivered normally. -/
theorem pass1_isolation (scales : List ℕ) (outcome : ℕ → Except String (List RawCandidate))
    (s : ℕ) (e : String) (hfail : outcome s = .error e) :
    recoverDetections (outcome s) = [] ∧
    pass1RawCandidates scales outcome =
      (scales.map fun t => if t = s then [] else recoverDetections (outcome t)).flatten ∧
    ∀ rs : List RawCandidate, raceResult (.ok rs) = rs := by
  refine ⟨by rw [hfail]; rfl, ?_, fun rs => rfl⟩
  unfold pass1RawCandidates
  congr 1
  apply List.map_congr_left
  intro t ht
  by_cases h : t = s
  · subst h
    rw [if_pos rfl, hfail]
    rfl
  · rw [if_neg h]

/-- C9 witness: with the scale ladder 320 and 416 where the 416 call throws,
the failing scale yields no candidates and the raw Pass 1 set is exactly the
candidate of the surviving scale. -/
theorem pass1_isolation_witness :
    recoverDetections (failingOutcome 416) = [] ∧
    pass1RawCandidates [320, 416] failingOutcome = [candA] := by
  have h := pass1_isolation [320, 416] failingOutcome 416 "detector crashed"
    (by norm_num [failingOutcome])
  refine ⟨h.1, ?_⟩
  rw [h.2.1]
  norm_num [failingOutcome, recoverDetections]

/-- C2: a viewer aggregated during the session appears in the finalized
summary exactly when it was aggregated, was seen in at least
MIN_FRAMES_FOR_SESSION (2) frames, and its best confidence reaches the
configured minimum demographic confidence; uniqueViewers and the per-bucket
demographics count exactly those qualifying viewers, and a viewer seen in a
single frame is excluded no matter its confidence. -/
theorem sessionClose_spec (startedAt endedAt frameCount : ℕ) (minConf : ℚ)
    (viewers : List ViewerAggregate) (v : ViewerAggregate) :
    (v ∈ (buildSessionSummary startedAt endedAt frameCount minConf viewers).viewers ↔
      v ∈ viewers ∧ 2 ≤ v.seenFrames ∧ minConf ≤ v.bestConfidence) ∧
    (buildSessionSummary startedAt endedAt frameCount minConf viewers).uniqueViewers =
      (buildSessionSummary startedAt endedAt frameCount minConf viewers).viewers.length ∧
    (buildSessionSummary startedAt endedAt frameCount minConf viewers).demographics.male =
      ((buildSessionSummary startedAt endedAt frameCount minConf viewers).viewers.filter
        fun u => decide (u.finalGender = .male)).length ∧
    (buildSessionSummary startedAt endedAt frameCount minConf viewers).demographics.female =
      ((buildSessionSummary startedAt endedAt frameCount minConf viewers).viewers.filter
        fun u => decide (u.finalGender = .female)).length ∧
    (v.seenFrames = 1 → v ∉ (buildSessionSummary startedAt endedAt frameCount minConf viewers).viewers) := by
  refine ⟨?_, rfl, rfl, rfl, ?_⟩
  · simp only [buildSessionSummary, List.mem_filter, MIN_FRAMES_FOR_SESSION,
      decide_eq_true_eq]
    tauto
  · intro h1 hmem
    simp [buildSessionSummary, List.mem_filter, MIN_FRAMES_FOR_SESSION, h1] at hmem

/-- C2 witness: in a session holding a one-frame viewer at confidence 1 and a
three-frame viewer at confidence 0.8, closing with minimum confidence 0.75
keeps only the second viewer. -/
theorem sessionClose_spec_witness :
    viewerOneFrame ∉
      (buildSessionSummary 0 10 5 (3/4) [viewerOneFrame, viewerThreeFrames]).viewers ∧
    viewerThreeFrames ∈
      (buildSessionSummary 0 10 5 (3/4) [viewerOneFrame, viewerThreeFrames]).viewers ∧
    (buildSessionSummary 0 10 5 (3/4) [viewerOneFrame, viewerThreeFrames]).uniqueViewers = 1 := by
  have h1 := sessionClose_spec 0 10 5 (3/4) [viewerOneFrame, viewerThreeFrames] viewerOneFrame
  have h2 := sessionClose_spec 0 10 5 (3/4) [viewerOneFrame, viewerThreeFrames] viewerThreeFrames
  refine ⟨h1.2.2.2.2 rfl, ?_, ?_⟩
  · exact h2.1.mpr ⟨by simp, by norm_num [viewerThreeFrames], by norm_num [viewerThreeFrames]⟩
  · norm_num [buildSessionSummary, List.filter, viewerOneFrame, viewerThreeFrames,
      MIN_FRAMES_FOR_SESSION]

/-- Helper fact: the greedy suppression keeps only candidates that are not
duplicates of any earlier kept candidate. -/
theorem dedupeKeep_pairwise (iouT contT : ℚ) :
    ∀ (l acc : List RawCandidate),
      acc.Pairwise (fun a b => isDuplicatePair iouT contT a b = false) →
      (dedupeKeep iouT contT acc l).Pairwise
        (fun a b => isDuplicatePair iouT contT a b = false) := by
  intro l
  induction l with
  | nil =>
    intro acc hacc
    simpa [dedupeKeep] using hacc
  | cons c rest ih =>
    intro acc hacc
    by_cases h : (acc.any fun kept => isDuplicatePair iouT contT kept c) = true
    · simp only [dedupeKeep]
      rw [if_pos h]
      exact ih acc hacc
    · simp only [dedupeKeep]
      rw [if_neg h]
      apply ih
      rw [List.pairwise_append]
      refine ⟨hacc, List.pairwise_singleton _ _, ?_⟩
      intro a ha b hb
      rw [List.mem_singleton] at hb
      rw [hb]
      have h' : (acc.any fun kept => isDuplicatePair iouT contT kept c) = false :=
        Bool.eq_false_iff.mpr h
      have := List.any_eq_false.mp h' a ha
      exact Bool.eq_false_iff.mpr this

/-- Helper fact: on an input whose elements are pairwise non-duplicates (also
against the accumulator), the greedy suppression keeps everything. -/
theorem dedupeKeep_of_pairwise (iouT contT : ℚ) :
    ∀ (l acc : List RawCandidate),
      (acc ++ l).Pairwise (fun a b => isDuplicatePair iouT contT a b = false) →
      dedupeKeep iouT contT acc l = acc ++ l := by
  intro l
  induction l with
  | nil =>
    intro acc _
    simp [dedupeKeep]
  | cons c rest ih =>
    intro acc h
    have h3 := (List.pairwise_append.mp h).2.2
    have hac : ∀ a ∈ acc, isDuplicatePair iouT contT a c = false := fun a ha =>
      h3 a ha c (List.mem_cons_self c rest)
    have hany : (acc.any fun kept => isDuplicatePair iouT contT kept c) = false := by
      rw [List.any_eq_false]
      intro x hx
      simp [hac x hx]
    simp only [dedupeKeep]
    rw [if_neg (by simp [hany])]
    have hassoc : (acc ++ [c]) ++ rest = acc ++ c :: rest := by simp
    rw [ih (acc ++ [c]) (by rw [hassoc]; exact h), hassoc]

/-- Helper fact: the greedy suppression output extends the accumulator by a
sublist of the input. -/
theorem dedupeKeep_sublist (iouT contT : ℚ) :
    ∀ (l acc : List RawCandidate),
      ∃ kept, dedupeKeep iouT contT acc l = acc ++ kept ∧ kept.Sublist l := by
  intro l
  induction l with
  | nil =>
    intro acc
    exact ⟨[], by simp [dedupeKeep], List.nil_sublist []⟩
  | cons c rest ih =>
    intro acc
    by_cases h : (acc.any fun kept => isDuplicatePair iouT contT kept c) = true
    · obtain ⟨kept, he, hs⟩ := ih acc
      refine ⟨kept, ?_, hs.cons c⟩
      simp only [dedupeKeep]
      rw [if_pos h]
      exact he
    · obtain ⟨kept, he, hs⟩ := ih (acc ++ [c])
      refine ⟨c :: kept, ?_, hs.cons₂ c⟩
      simp only [dedupeKeep]
      rw [if_neg h, he]
      simp

/-- C7: the detection merger is idempotent; applying mergeDetections to its
own output (with the same IoU and containment thresholds) returns that output
unchanged. -/
theorem mergeDetections_idempotent (iouT contT : ℚ) (detections : List RawCandidate) :
    mergeDetections iouT contT (mergeDetections iouT contT detections) =
      mergeDetections iouT contT detections := by
  have htrans : ∀ a b c : RawCandidate,
      (fun a b : RawCandidate => decide (b.score ≤ a.score)) a b = true →
      (fun a b : RawCandidate => decide (b.score ≤ a.score)) b c = true →
      (fun a b : RawCandidate => decide (b.score ≤ a.score)) a c = true := by
    intro a b c hab hbc
    simp only [decide_eq_true_eq] at *
    exact le_trans hbc hab
  have htotal : ∀ a b : RawCandidate,
      ((fun a b : RawCandidate => decide (b.score ≤ a.score)) a b ||
        (fun a b : RawCandidate => decide (b.score ≤ a.score)) b a) = true := by
    intro a b
    simp only [Bool.or_eq_true, decide_eq_true_eq]
    exact le_total b.score a.score
  have hsorted : (sortByScoreDesc detections).Pairwise
      (fun a b : RawCandidate => decide (b.score ≤ a.score)) :=
    List.sorted_mergeSort htrans htotal detections
  obtain ⟨kept, hk, hs⟩ :=
    dedupeKeep_sublist iouT contT (sortByScoreDesc detections) []
  have hm_eq : mergeDetections iouT contT detections = kept := by
    rw [mergeDetections, hk]
    simp
  have hmsorted : (mergeDetections iouT contT detections).Pairwise
      (fun a b : RawCandidate => decide (b.score ≤ a.score)) := by
    rw [hm_eq]
    exact hsorted.sublist hs
  have hR : (mergeDetections iouT contT detections).Pairwise
      (fun a b => isDuplicatePair iouT contT a b = false) :=
    dedupeKeep_pairwise iouT contT (sortByScoreDesc detections) [] List.Pairwise.nil
  calc mergeDetections iouT contT (mergeDetections iouT contT detections)
      = dedupeKeep iouT contT []
          (sortByScoreDesc (mergeDetections iouT contT detections)) := rfl
    _ = dedupeKeep iouT contT [] (mergeDetections iouT contT detections) := by
        rw [sortByScoreDesc, List.mergeSort_of_sorted hmsorted]
    _ = [] ++ mergeDetections iouT contT detections :=
        dedupeKeep_of_pairwise iouT contT _ [] (by simpa using hR)
    _ = mergeDetections iouT contT detections := by simp

/-- C8, amended: an unmatched detection always spawns a provisional track
(one consecutive hit, stable values set to the detection's own labels), but
its votes are seeded with the detection's classification only when the
detection's confidence reaches MIN_VOTE_CONFIDENCE (0.65): the vote weight is
confidence times faceScore capped at 1, a female detection's weight carries
the extra proportional boost factor, and below the threshold all initial
votes are zero. -/
theorem spawnTrack_spec (fbf : ℚ) (newId : String) (now : ℕ) (d : DetectionResult) :
    (spawnTrack fbf newId now d).consecutiveHits = 1 ∧
    (spawnTrack fbf newId now d).missedFrames = 0 ∧
    (spawnTrack fbf newId now d).stableGender = d.gender ∧
    (spawnTrack fbf newId now d).stableAgeGroup = d.ageGroup ∧
    (MIN_VOTE_CONFIDENCE ≤ d.confidence →
      (d.gender = .male →
        (spawnTrack fbf newId now d).genderVotes =
          { male := d.confidence * min d.faceScore 1, female := 0 }) ∧
      (d.gender = .female →
        (spawnTrack fbf newId now d).genderVotes =
          { male := 0,
            female := d.confidence * min d.faceScore 1 *
              (1 + fbf * max 0 (1 - (d.confidence - 1/2) * 2)) }) ∧
      (spawnTrack fbf newId now d).ageVotes =
        addAgeVote { kid := 0, young := 0, adult := 0 } d.ageGroup
          (d.confidence * min d.faceScore 1)) ∧
    (d.confidence < MIN_VOTE_CONFIDENCE →
      (spawnTrack fbf newId now d).genderVotes = { male := 0, female := 0 } ∧
      (spawnTrack fbf newId now d).ageVotes = { kid := 0, young := 0, adult := 0 }) := by
  refine ⟨rfl, rfl, rfl, rfl, ?_, ?_⟩
  · intro h
    refine ⟨fun hg => ?_, fun hg => ?_, ?_⟩
    · simp [spawnTrack, voteWeightOf, femaleBoostOf, confidenceScaleOf, if_pos h, hg]
    · simp [spawnTrack, voteWeightOf, femaleBoostOf, confidenceScaleOf, if_pos h, hg]
    · simp [spawnTrack, voteWeightOf, femaleBoostOf, confidenceScaleOf, if_pos h]
  · intro h
    constructor <;>
      simp [spawnTrack, if_neg (not_le.mpr h)]

/-- C8 witness: a male detection at confidence 0.8 and face score 0.9 seeds
male votes 0.72, while one at confidence 0.5 seeds no votes at all. -/
theorem spawnTrack_spec_witness :
    (spawnTrack (3/20) "n" 0 detectionHighConf).genderVotes =
      { male := 18/25, female := 0 } ∧
    (spawnTrack (3/20) "n" 0 detectionLowConf).genderVotes =
      { male := 0, female := 0 } := by
  constructor
  · have h := ((spawnTrack_spec (3/20) "n" 0 detectionHighConf).2.2.2.2.1
      (by norm_num [detectionHighConf, MIN_VOTE_CONFIDENCE])).1 rfl
    rw [h]
    norm_num [detectionHighConf]
  · exact ((spawnTrack_spec (3/20) "n" 0 detectionLowConf).2.2.2.2.2
      (by norm_num [detectionLowConf, MIN_VOTE_CONFIDENCE])).1

/-- C8 counterexample: the claim's unconditional seeding fails.  The
unmatched detection with confidence 0.5 and face score 0.9 spawns a track
whose male votes are 0, not the claimed confidence times face score 0.45,
because 0.5 is below MIN_VOTE_CONFIDENCE. -/
theorem spawnTrack_zero_votes_counterexample :
    (spawnTrack (3/20) "n" 0 detectionLowConf).genderVotes.male = 0 ∧
    detectionLowConf.confidence * min detectionLowConf.faceScore 1 = 9/20 ∧
    (0 : ℚ) ≠ 9/20 := by
  refine ⟨?_, by norm_num [detectionLowConf], by norm_num⟩
  norm_num [spawnTrack, detectionLowConf, MIN_VOTE_CONFIDENCE]

/-- Helper fact: the per-track entry of the stale pass never changes a
track's id. -/
theorem staleEntry_id (matchedIds : List String) (b : Bool) (hold : ℕ) (u w : TrackedFace)
    (h : (if matchedIds.contains u.id || b then some u else staleStep hold u) = some w) :
    w.id = u.id := by
  by_cases hc : (matchedIds.contains u.id || b) = true
  · rw [if_pos hc] at h
    cases h
    rfl
  · rw [if_neg hc] at h
    simp only [staleStep] at h
    split_ifs at h
    all_goals first
      | exact Option.noConfusion h
      | (cases h; rfl)

/-- Helper fact: the stale pass output holds no track with an id absent from
its input. -/
theorem staleFilter_ne (matchedIds : List String) (b : Bool) (hold : ℕ)
    (us : List TrackedFace) (x : String) (hx : ∀ u ∈ us, u.id ≠ x) :
    ((us.filterMap fun u =>
        if matchedIds.contains u.id || b then some u else staleStep hold u).filter
      fun u => decide (u.id = x)) = [] := by
  rw [List.filter_eq_nil_iff]
  intro v hv
  rw [List.mem_filterMap] at hv
  obtain ⟨u, hu, hfu⟩ := hv
  have := staleEntry_id matchedIds b hold u v hfu
  simp [this, hx u hu]

/-- C3, amended: the stale-track pass runs only in cycles where every
detection was matched.  When some detection is unused the whole pass is
skipped and every track (matched or not) survives unchanged; when all
detections were matched, an unmatched track's missedFrames grows by exactly
1, and the track is deleted (absent from the next table) exactly when that
new count exceeds holdFrames. -/
theorem staleUpdate_spec (table : List TrackedFace) (matchedIds : List String)
    (holdFrames : ℕ) (t : TrackedFace)
    (hnd : (table.map TrackedFace.id).Nodup) (hmem : t ∈ table)
    (hunm : ¬ (matchedIds.contains t.id = true)) :
    staleUpdate matchedIds true holdFrames table = table ∧
    ((staleUpdate matchedIds false holdFrames table).filter
        fun u => decide (u.id = t.id)).map TrackedFace.missedFrames =
      (if t.missedFrames + 1 ≤ holdFrames then [t.missedFrames + 1] else []) := by
  constructor
  · unfold staleUpdate
    simp
  · unfold staleUpdate
    induction table with
    | nil => cases hmem
    | cons u us ih =>
      have hnd1 : u.id ∉ us.map TrackedFace.id := (List.nodup_cons.mp hnd).1
      have hnd2 : (us.map TrackedFace.id).Nodup := (List.nodup_cons.mp hnd).2
      rcases List.mem_cons.mp hmem with rfl | hmem'
      · -- the head of the table is the unmatched track t
        have hids : ∀ v ∈ us, v.id ≠ t.id := by
          intro v hv hvid
          exact hnd1 (hvid ▸ List.mem_map_of_mem TrackedFace.id hv)
        by_cases h1 : holdFrames < t.missedFrames + 1
        · rw [List.filterMap_cons_none (by
            rw [Bool.or_false, if_neg hunm]
            simp only [staleStep]
            rw [if_pos h1])]
          rw [staleFilter_ne matchedIds false holdFrames us t.id hids,
            if_neg (not_le.mpr h1)]
          rfl
        · obtain ⟨w, hw, hwid, hwm⟩ : ∃ w, staleStep holdFrames t = some w ∧
              w.id = t.id ∧ w.missedFrames = t.missedFrames + 1 := by
            simp only [staleStep]
            rw [if_neg h1]
            exact ⟨_, rfl, rfl, rfl⟩
          rw [List.filterMap_cons_some (by rw [Bool.or_false, if_neg hunm]; exact hw)]
          rw [List.filter_cons_of_pos (by simp [hwid]),
            staleFilter_ne matchedIds false holdFrames us t.id hids,
            if_pos (not_lt.mp h1)]
          simp [hwm]
      · -- t sits in the tail; the head contributes nothing with t's id
        have huid : u.id ≠ t.id := by
          intro hvid
          exact hnd1 (hvid ▸ List.mem_map_of_mem TrackedFace.id hmem')
        rcases Option.eq_none_or_eq_some (if matchedIds.contains u.id || false then some u
            else staleStep holdFrames u) with hfu | ⟨w, hfu⟩
        · rw [@List.filterMap_cons_none TrackedFace TrackedFace
            (fun x => if (matchedIds.contains x.id || false) = true then some x
              else staleStep holdFrames x) u us hfu]
          exact ih hnd2 hmem'
        · rw [@List.filterMap_cons_some TrackedFace TrackedFace
            (fun x => if (matchedIds.contains x.id || false) = true then some x
              else staleStep holdFrames x) u us w hfu]
          rw [List.filter_cons_of_neg
            (by simp [staleEntry_id matchedIds false holdFrames u w hfu, huid])]
          exact ih hnd2 hmem'

/-- C3 witness: the amended stale-pass theorem instantiated on a singleton
table with webcam hold budget 3: with an unused detection present the pass is
skipped, and with all detections matched the track's missed count becomes
1. -/
theorem staleUpdate_spec_witness :
    staleUpdate [] true 3 [trackT0] = [trackT0] ∧
    ((staleUpdate [] false 3 [trackT0]).filter
        fun u => decide (u.id = trackT0.id)).map TrackedFace.missedFrames = [1] := by
  have h := staleUpdate_spec [trackT0] [] 3 trackT0 (by simp)
    (List.mem_singleton_self trackT0) (by simp)
  refine ⟨h.1, ?_⟩
  rw [h.2]
  norm_num [trackT0]

/-- C3 counterexample: a cycle with one existing track and one detection that
can match no track (its center is 1000 px away, beyond maxVelocityPx 250).
The claim demands the unmatched track's missedFrames become 1, but because
the unmatched detection leaves the stale pass disabled, the track keeps
missedFrames 0 after the cycle. -/
theorem unmatched_track_not_aged_counterexample :
    greedyMatch axialCenterDistance DEFAULT_WEBCAM_TRACKING [trackT0] [detectionFar] = [] ∧
    ((runCycleTracks axialCenterDistance DEFAULT_WEBCAM_TRACKING (3/20) 5 constNewId
        [trackT0] [detectionFar]).filter fun u => decide (u.id = "t0")).map
      TrackedFace.missedFrames = [0] := by
  have hbest : bestMatchFor axialCenterDistance DEFAULT_WEBCAM_TRACKING [detectionFar] []
      trackT0 = none := by
    norm_num [bestMatchFor, List.enum, List.enumFrom, axialCenterDistance,
      trackT0, detectionFar, DEFAULT_WEBCAM_TRACKING]
  have hmatch : greedyMatch axialCenterDistance DEFAULT_WEBCAM_TRACKING [trackT0]
      [detectionFar] = [] := by
    simp [greedyMatch, hbest]
  refine ⟨hmatch, ?_⟩
  unfold runCycleTracks
  rw [hmatch]
  norm_num [staleUpdate, staleStep, List.enum, List.enumFrom, spawnTrack,
    trackT0, detectionFar, DEFAULT_WEBCAM_TRACKING, constNewId, List.filter]
  simp

end SmartAds
